import Mathlib

/-!
Shallow embedding of the room-booking reservation core:
`AvailabilityService` (apps/api/src/features/availability/availability.service.ts),
`BookingsService` (apps/api/src/features/bookings/bookings.service.ts) and the
booking controller's idempotency-key selection
(apps/api/src/features/bookings/bookings.controller.ts).

Calendar dates are modelled as natural day numbers; timestamps (hold expiry,
the current clock) as natural numbers on an independent axis.  The MySQL
`availability` table is a list of rows; SQL `UPDATE`/`SELECT` statements become
`List.map`/`List.filter` over that list.  The external payment gateway and the
possibility of an exception while persisting the PENDING booking row are
injected through an environment record, so every exit path of `createBooking`
is explicit.
-/

namespace RoomBooking

/-- The `AvailabilityStatus` enum from availability.entity.ts
(`available` / `held` / `booked`). -/
inductive AvailabilityStatus where
  | available
  | held
  | booked
deriving DecidableEq, Repr

/-- One row of the `availability` table:
(room_id, date, status, hold_expires_at, version).
`hold_expires_at` is a nullable datetime, modelled as `Option Nat`. -/
structure AvailabilityRow where
  room_id : Nat
  date : Nat
  status : AvailabilityStatus
  hold_expires_at : Option Nat
  version : Nat
deriving DecidableEq, Repr

/-- The SQL range predicate `room_id = ? AND date BETWEEN checkIn AND endDate`
where `endDate` is check-out minus one day (the service computes
`checkOutMinusOne` before every query). -/
def lockedPred (roomId checkIn checkOut : Nat) (r : AvailabilityRow) : Bool :=
  decide (r.room_id = roomId) && decide (checkIn ≤ r.date) &&
    decide (r.date ≤ checkOut - 1)

/-- The per-row conflict test inside `holdDatesWithLocking`: a `booked` row is
unavailable; a `held` row is unavailable exactly when its expiry is still in
the future (`holdExpiry > now`).  A `held` row with a NULL expiry compares as
the epoch in the JS code (`new Date(null)`), hence is never in the future. -/
def holdUnavailable (now : Nat) (r : AvailabilityRow) : Bool :=
  match r.status with
  | .booked => true
  | .held =>
    match r.hold_expires_at with
    | some e => decide (now < e)
    | none => false
  | .available => false

/-- Result of `holdDatesWithLocking`: the `success` flag and the dates listed
in the conflict message (`Some dates are already booked or held: ...`). -/
structure HoldResult where
  success : Bool
  conflictDates : List Nat
deriving DecidableEq, Repr

/-- The `UPDATE availability SET status='held', hold_expires_at=?,
version=version+1 WHERE room_id=? AND date BETWEEN ? AND ?` statement, applied
to one row.  Note the SQL has no status guard: every row in the range is
rewritten. -/
def holdRowUpdate (roomId checkIn checkOut expiry : Nat) (r : AvailabilityRow) :
    AvailabilityRow :=
  if lockedPred roomId checkIn checkOut r = true then
    { r with status := .held, hold_expires_at := some expiry,
             version := r.version + 1 }
  else r

/-- The method `AvailabilityService.holdDatesWithLocking`: inside one transaction, select
the rows of the (room, range) `FOR UPDATE`, filter the unavailable ones among
them, and either report the conflicting dates (leaving the table unchanged) or
rewrite every selected row to `held` with expiry `now + holdMinutes`.
Returns the new table and the result.  Dates of the range with no row simply
do not appear in `lockedRows`; the method never compares the row count with
the number of nights requested. -/
def holdDatesWithLocking (db : List AvailabilityRow)
    (roomId checkIn checkOut holdMinutes now : Nat) :
    List AvailabilityRow × HoldResult :=
  let lockedRows := db.filter (lockedPred roomId checkIn checkOut)
  let unavailableDates := lockedRows.filter (holdUnavailable now)
  if unavailableDates.isEmpty then
    (db.map (holdRowUpdate roomId checkIn checkOut (now + holdMinutes)),
     ⟨true, []⟩)
  else
    (db, ⟨false, unavailableDates.map (fun r => r.date)⟩)

/-- The `UPDATE ... SET status='booked', hold_expires_at=NULL,
version=version+1 WHERE ... AND status='held'` of `confirmBooking`, applied to
one row. -/
def confirmRowUpdate (roomId checkIn checkOut : Nat) (r : AvailabilityRow) :
    AvailabilityRow :=
  if lockedPred roomId checkIn checkOut r = true ∧ r.status = .held then
    { r with status := .booked, hold_expires_at := none,
             version := r.version + 1 }
  else r

/-- The method `AvailabilityService.confirmBooking`: flip the `held` rows of the range to
`booked`; rows that are not `held`, and rows outside the range, are untouched
(the `status='held'` guard in the SQL). -/
def confirmBooking (db : List AvailabilityRow) (roomId checkIn checkOut : Nat) :
    List AvailabilityRow :=
  db.map (confirmRowUpdate roomId checkIn checkOut)

/-- The `UPDATE ... SET status='available', hold_expires_at=NULL,
version=version+1 WHERE ... AND status='held'` of `releaseHold`, applied to one
row. -/
def releaseRowUpdate (roomId checkIn checkOut : Nat) (r : AvailabilityRow) :
    AvailabilityRow :=
  if lockedPred roomId checkIn checkOut r = true ∧ r.status = .held then
    { r with status := .available, hold_expires_at := none,
             version := r.version + 1 }
  else r

/-- The method `AvailabilityService.releaseHold`: flip the `held` rows of the range back
to `available`; same no-op rule as `confirmBooking` for everything else. -/
def releaseHold (db : List AvailabilityRow) (roomId checkIn checkOut : Nat) :
    List AvailabilityRow :=
  db.map (releaseRowUpdate roomId checkIn checkOut)

/-- The row predicate of `checkAvailability`'s query:
`status='booked' OR (status='held' AND hold_expires_at > NOW())`.  A NULL
`hold_expires_at` makes the SQL comparison NULL, i.e. not matched. -/
def checkUnavailable (now : Nat) (r : AvailabilityRow) : Bool :=
  decide (r.status = .booked) ||
    (decide (r.status = .held) &&
      match r.hold_expires_at with
      | some e => decide (now < e)
      | none => false)

/-- The method `AvailabilityService.checkAvailability` on a cache miss: count the rows of
the (room, range) matching `checkUnavailable` and return whether the count is
zero.  (The Redis read-through cache in front of this query is an external
collaborator and is not modelled; this is the ledger decision that gets
cached.) -/
def checkAvailability (db : List AvailabilityRow)
    (roomId checkIn checkOut now : Nat) : Bool :=
  (db.filter (fun r =>
      lockedPred roomId checkIn checkOut r && checkUnavailable now r)).length
    == 0

/-- The row predicate of `cleanupExpiredHolds`:
`status='held' AND hold_expires_at < NOW()` (NULL expiry never matches). -/
def expiredHold (now : Nat) (r : AvailabilityRow) : Bool :=
  decide (r.status = .held) &&
    match r.hold_expires_at with
    | some e => decide (e < now)
    | none => false

/-- The `SET status='available', hold_expires_at=NULL, version=version+1` of
the reaper, applied to one matching row. -/
def reapRowUpdate (now : Nat) (r : AvailabilityRow) : AvailabilityRow :=
  if expiredHold now r = true then
    { r with status := .available, hold_expires_at := none,
             version := r.version + 1 }
  else r

/-- The method `AvailabilityService.cleanupExpiredHolds`: update every expired `held` row
of the whole table and return the number of affected rows
(`result.affected || 0`). -/
def cleanupExpiredHolds (db : List AvailabilityRow) (now : Nat) :
    List AvailabilityRow × Nat :=
  (db.map (reapRowUpdate now), (db.filter (expiredHold now)).length)

/-- The `BookingStatus` enum from booking.entity.ts. -/
inductive BookingStatus where
  | pending
  | confirmed
  | cancelled
  | expired
deriving DecidableEq, Repr

/-- One row of the `bookings` table.  `idempotency_key` is the value the
service wrote (`idempotency_key: idempotencyKey`), absent when the caller
supplied none. -/
structure Booking where
  id : Nat
  user_id : Nat
  room_id : Nat
  check_in : Nat
  check_out : Nat
  guests : Nat
  status : BookingStatus
  total_price : Nat
  idempotency_key : Option String
  payment_intent_id : Option String
deriving DecidableEq, Repr

/-- A room as used by `createBooking`: id, nightly price, capacity
(room.entity.ts). -/
structure Room where
  id : Nat
  price : Nat
  capacity : Nat
deriving DecidableEq, Repr

/-- The `CreateBookingDto` shape (create-booking.dto.ts). -/
structure CreateBookingDto where
  roomId : Nat
  checkIn : Nat
  checkOut : Nat
  guests : Nat
  idempotencyKey : Option String
deriving DecidableEq, Repr

/-- The `PaymentStatus` enum from payments.service.ts. -/
inductive PaymentStatus where
  | success
  | failed
deriving DecidableEq, Repr

/-- The `PaymentResult` shape from payments.service.ts. -/
structure PaymentResult where
  status : PaymentStatus
  transactionId : String
  errorMessage : Option String
deriving DecidableEq, Repr

/-- The error taxonomy of the service layer: `BadRequestException`,
`ConflictException` (carrying the conflicting dates of the hold message),
`NotFoundException` for rooms and for bookings (carrying the looked-up id, as
the thrown message does), and an internal error standing for any other thrown
exception. -/
inductive ApiError where
  | badRequest (msg : String)
  | conflict (dates : List Nat)
  | notFoundRoom (roomId : Nat)
  | notFoundBooking (bookingId : Nat)
  | internalError (msg : String)
deriving DecidableEq, Repr

/-- External calls `createBooking` performs, recorded in order so that
"the payment gateway was never called" and "no side effects were re-run" are
propositions about a run. -/
inductive EffectCall where
  | roomLookup (roomId : Nat)
  | holdCall (roomId checkIn checkOut : Nat)
  | savePending (bookingId : Nat)
  | paymentCall (amount bookingId userId : Nat)
  | saveUpdate (bookingId : Nat)
  | confirmCall (roomId checkIn checkOut : Nat)
  | releaseCall (roomId checkIn checkOut : Nat)
deriving DecidableEq, Repr

/-- Whether an effect is a call to `PaymentsService.processPayment`. -/
def EffectCall.isPaymentCall : EffectCall → Bool
  | .paymentCall _ _ _ => true
  | _ => false

/-- Environment injected into `createBooking`: the current date (for the
past-check-in validation), the current timestamp (for hold-expiry logic), the
room catalog, the outcome of the single payment-gateway call (`Except.error`
models the call throwing), and whether persisting the PENDING booking row
throws for some reason beyond the schema constraints (those are modelled in
`pendingSaveThrows`). -/
structure Env where
  today : Nat
  now : Nat
  rooms : List Room
  payment : Except String PaymentResult
  pendingSaveFails : Bool

/-- Mutable state threaded through `createBooking`: the availability table,
the bookings table, and the next auto-increment booking id. -/
structure BookingsState where
  availability : List AvailabilityRow
  bookings : List Booking
  nextBookingId : Nat
deriving DecidableEq, Repr

/-- Result of one `createBooking` run: final state, the ordered trace of
external calls, and the returned booking or thrown error. -/
structure RunResult where
  state : BookingsState
  trace : List EffectCall
  outcome : Except ApiError Booking

/-- Step 1 of `createBooking`: the lookup is guarded by JS truthiness —
`if (idempotencyKey)` — so it runs only for a non-empty key; with no key, or
with the empty-string key (falsy in JS, reachable through
`dto.idempotencyKey`), the lookup is skipped entirely. -/
def idemLookup (st : BookingsState) (idempotencyKey : Option String) :
    Option Booking :=
  match idempotencyKey with
  | some key =>
    if key = "" then none
    else st.bookings.find? (fun b => decide (b.idempotency_key = some key))
  | none => none

/-- Whether the `bookingRepository.save` of the PENDING row throws: the
injected generic failure, the NOT NULL constraint on
`bookings.idempotency_key` (the migration declares the column
`varchar(255) NOT NULL` with no default, so an insert without a key is
rejected by MySQL), or its UNIQUE constraint (a stored booking already
carries the same key). -/
def pendingSaveThrows (env : Env) (st : BookingsState)
    (idempotencyKey : Option String) : Bool :=
  env.pendingSaveFails || decide (idempotencyKey = none) ||
    st.bookings.any (fun b => decide (b.idempotency_key = idempotencyKey))

/-- The call `bookingRepository.save` on an entity whose id already exists: update the
row with that primary key in place. -/
def updateBookingRow (bookings : List Booking) (b : Booking) : List Booking :=
  bookings.map (fun x => if x.id = b.id then b else x)

/-- The method `BookingsService.createBooking`, step by step as in the source:
idempotency lookup; date validation; room lookup and capacity check; price =
price × nights; `holdDatesWithLocking` (5-minute hold) with a
`ConflictException` on failure; save the PENDING booking row (this save is
outside the later try/catch — if it throws, by injection or by violating the
NOT NULL or UNIQUE constraint on the idempotency-key column, the error
surfaces with no release); then, inside try/catch, the payment call: on
success save the
CONFIRMED row and `confirmBooking`; on decline save the CANCELLED row,
`releaseHold`, and throw — the catch releases again and rethrows; if the
payment call itself throws, the catch releases and rethrows. -/
def createBooking (env : Env) (st : BookingsState) (userId : Nat)
    (dto : CreateBookingDto) (idempotencyKey : Option String) : RunResult :=
  match idemLookup st idempotencyKey with
  | some existingBooking => ⟨st, [], .ok existingBooking⟩
  | none =>
    if dto.checkOut ≤ dto.checkIn then
      ⟨st, [], .error (.badRequest "Check-out must be after check-in")⟩
    else if dto.checkIn < env.today then
      ⟨st, [], .error (.badRequest "Check-in date must be in the future")⟩
    else
      match env.rooms.find? (fun r => decide (r.id = dto.roomId)) with
      | none => ⟨st, [.roomLookup dto.roomId], .error (.notFoundRoom dto.roomId)⟩
      | some room =>
        if room.capacity < dto.guests then
          ⟨st, [.roomLookup dto.roomId], .error (.badRequest "Room capacity exceeded")⟩
        else
          let nights := dto.checkOut - dto.checkIn
          let totalPrice := room.price * nights
          let hold := holdDatesWithLocking st.availability dto.roomId
            dto.checkIn dto.checkOut 5 env.now
          if hold.2.success then
            let booking : Booking :=
              { id := st.nextBookingId, user_id := userId, room_id := dto.roomId,
                check_in := dto.checkIn, check_out := dto.checkOut,
                guests := dto.guests, status := .pending,
                total_price := totalPrice, idempotency_key := idempotencyKey,
                payment_intent_id := none }
            if pendingSaveThrows env st idempotencyKey then
              ⟨⟨hold.1, st.bookings, st.nextBookingId⟩,
               [.roomLookup dto.roomId,
                .holdCall dto.roomId dto.checkIn dto.checkOut,
                .savePending st.nextBookingId],
               .error (.internalError "booking save failed")⟩
            else
              match env.payment with
              | .error m =>
                ⟨⟨releaseHold hold.1 dto.roomId dto.checkIn dto.checkOut,
                  st.bookings ++ [booking], st.nextBookingId + 1⟩,
                 [.roomLookup dto.roomId,
                  .holdCall dto.roomId dto.checkIn dto.checkOut,
                  .savePending st.nextBookingId,
                  .paymentCall totalPrice st.nextBookingId userId,
                  .releaseCall dto.roomId dto.checkIn dto.checkOut],
                 .error (.internalError m)⟩
              | .ok pr =>
                if pr.status = .success then
                  let confirmed :=
                    { booking with
                      status := .confirmed,
                      payment_intent_id := some pr.transactionId }
                  ⟨⟨confirmBooking hold.1 dto.roomId dto.checkIn dto.checkOut,
                    updateBookingRow (st.bookings ++ [booking]) confirmed,
                    st.nextBookingId + 1⟩,
                   [.roomLookup dto.roomId,
                    .holdCall dto.roomId dto.checkIn dto.checkOut,
                    .savePending st.nextBookingId,
                    .paymentCall totalPrice st.nextBookingId userId,
                    .saveUpdate st.nextBookingId,
                    .confirmCall dto.roomId dto.checkIn dto.checkOut],
                   .ok confirmed⟩
                else
                  let cancelled := { booking with status := .cancelled }
                  ⟨⟨releaseHold
                      (releaseHold hold.1 dto.roomId dto.checkIn dto.checkOut)
                      dto.roomId dto.checkIn dto.checkOut,
                    updateBookingRow (st.bookings ++ [booking]) cancelled,
                    st.nextBookingId + 1⟩,
                   [.roomLookup dto.roomId,
                    .holdCall dto.roomId dto.checkIn dto.checkOut,
                    .savePending st.nextBookingId,
                    .paymentCall totalPrice st.nextBookingId userId,
                    .saveUpdate st.nextBookingId,
                    .releaseCall dto.roomId dto.checkIn dto.checkOut,
                    .releaseCall dto.roomId dto.checkIn dto.checkOut],
                   .error (.badRequest "Payment failed")⟩
          else
            ⟨⟨hold.1, st.bookings, st.nextBookingId⟩,
             [.roomLookup dto.roomId,
              .holdCall dto.roomId dto.checkIn dto.checkOut],
             .error (.conflict hold.2.conflictDates)⟩

/-- The method `BookingsService.getBooking`: find the booking by id; throw
`NotFoundException` with the same message when the row is missing and when it
belongs to another user (only when a `userId` was supplied). -/
def getBooking (bookings : List Booking) (bookingId : Nat)
    (userId : Option Nat) : Except ApiError Booking :=
  match bookings.find? (fun b => decide (b.id = bookingId)) with
  | none => .error (.notFoundBooking bookingId)
  | some booking =>
    match userId with
    | some uid =>
      if booking.user_id ≠ uid then .error (.notFoundBooking bookingId)
      else .ok booking
    | none => .ok booking

/-- The controller's key selection: `idempotencyKey || dto.idempotencyKey`
(JS `||`, so an empty header string also falls back to the dto's key); no key
is ever generated. -/
def chooseIdempotencyKey (headerKey dtoKey : Option String) : Option String :=
  match headerKey with
  | some s => if s = "" then dtoKey else some s
  | none => dtoKey

end RoomBooking

namespace RoomBooking

/-- A sample row used by concrete counterexamples and witnesses. -/
def rowA10 : AvailabilityRow := ⟨1, 10, .available, none, 0⟩

/-- A stored booking, scenario data for concrete runs. -/
def storedBooking : Booking :=
  ⟨3, 7, 1, 10, 12, 2, .confirmed, 200, some "key-1", some "tx"⟩

/-- Environment of the concrete runs: room 1 costs 100 a night with capacity
4, the payment gateway approves with transaction "tx1", saving the pending
row works. -/
def envOk : Env := ⟨5, 100, [⟨1, 100, 4⟩], .ok ⟨.success, "tx1", none⟩, false⟩

/-- Environment whose payment gateway declines. -/
def envDecl : Env :=
  ⟨5, 100, [⟨1, 100, 4⟩], .ok ⟨.failed, "tx2", some "declined"⟩, false⟩

/-- Environment where saving the PENDING booking row throws. -/
def envSaveFails : Env := ⟨5, 100, [⟨1, 100, 4⟩], .ok ⟨.success, "tx1", none⟩, true⟩

/-- Conflicting concrete state: date 10 is already booked. -/
def stConflict : BookingsState :=
  ⟨[⟨1, 10, .booked, none, 0⟩, ⟨1, 11, .available, none, 0⟩], [], 1⟩

/-- A confirmed booking stored under the empty-string idempotency key. -/
def emptyKeyBooking : Booking :=
  ⟨3, 7, 1, 10, 12, 2, .confirmed, 200, some "", some "tx"⟩

/-- State holding emptyKeyBooking, with dates 10 and 11 of room 1 available. -/
def stEmptyKey : BookingsState :=
  ⟨[⟨1, 10, .available, none, 0⟩, ⟨1, 11, .available, none, 0⟩],
   [emptyKeyBooking], 4⟩

/-- Free concrete state: dates 10 and 11 of room 1 both available. -/
def stFree : BookingsState :=
  ⟨[⟨1, 10, .available, none, 0⟩, ⟨1, 11, .available, none, 0⟩], [], 1⟩

theorem lockedPred_iff (roomId checkIn checkOut : Nat) (r : AvailabilityRow) :
    lockedPred roomId checkIn checkOut r = true ↔
      r.room_id = roomId ∧ checkIn ≤ r.date ∧ r.date ≤ checkOut - 1 := by
  simp [lockedPred, and_assoc]

theorem hold_success_iff (db : List AvailabilityRow)
    (roomId checkIn checkOut holdMinutes now : Nat) :
    (holdDatesWithLocking db roomId checkIn checkOut holdMinutes now).2.success = true ↔
      ∀ r ∈ db, lockedPred roomId checkIn checkOut r = true →
        holdUnavailable now r = false := by
  unfold holdDatesWithLocking
  dsimp only
  split
  next h =>
    simp only [List.isEmpty_iff, List.filter_eq_nil_iff, List.mem_filter] at h
    simp only [eq_self_iff_true, true_iff]
    intro r hr hlock
    exact Bool.eq_false_iff.mpr (h r ⟨hr, hlock⟩)
  next h =>
    simp only [List.isEmpty_iff, List.filter_eq_nil_iff, List.mem_filter] at h
    push_neg at h
    obtain ⟨r, ⟨hr, hlock⟩, hun⟩ := h
    simp only [Bool.false_eq_true, false_iff]
    push_neg
    exact ⟨r, hr, hlock, by simpa using hun⟩

end RoomBooking

namespace RoomBooking

theorem hold_success_fst (db : List AvailabilityRow)
    (roomId checkIn checkOut holdMinutes now : Nat)
    (h : (holdDatesWithLocking db roomId checkIn checkOut holdMinutes now).2.success = true) :
    (holdDatesWithLocking db roomId checkIn checkOut holdMinutes now).1 =
      db.map (holdRowUpdate roomId checkIn checkOut (now + holdMinutes)) := by
  unfold holdDatesWithLocking at h ⊢
  dsimp only at h ⊢
  by_cases hc : (List.filter (holdUnavailable now)
      (List.filter (lockedPred roomId checkIn checkOut) db)).isEmpty = true
  · rw [if_pos hc]
  · rw [if_neg hc] at h
    simp at h

theorem hold_fail_fst (db : List AvailabilityRow)
    (roomId checkIn checkOut holdMinutes now : Nat)
    (h : (holdDatesWithLocking db roomId checkIn checkOut holdMinutes now).2.success = false) :
    (holdDatesWithLocking db roomId checkIn checkOut holdMinutes now).1 = db := by
  unfold holdDatesWithLocking at h ⊢
  dsimp only at h ⊢
  by_cases hc : (List.filter (holdUnavailable now)
      (List.filter (lockedPred roomId checkIn checkOut) db)).isEmpty = true
  · rw [if_pos hc] at h
    simp at h
  · rw [if_neg hc]

theorem checkUnavailable_iff (now : Nat) (r : AvailabilityRow) :
    checkUnavailable now r = true ↔
      r.status = .booked ∨
        (r.status = .held ∧ ∃ e, r.hold_expires_at = some e ∧ now < e) := by
  unfold checkUnavailable
  rcases r with ⟨rid, d, st, he, v⟩
  cases he <;> cases st <;> simp

theorem checkAvailability_false_iff (db : List AvailabilityRow)
    (roomId checkIn checkOut now : Nat) :
    checkAvailability db roomId checkIn checkOut now = false ↔
      ∃ r ∈ db, lockedPred roomId checkIn checkOut r = true ∧
        checkUnavailable now r = true := by
  unfold checkAvailability
  constructor
  · intro h
    rw [beq_eq_false_iff_ne] at h
    have hne : (db.filter fun r =>
        lockedPred roomId checkIn checkOut r && checkUnavailable now r) ≠ [] := by
      intro hnil
      exact h (by rw [hnil]; rfl)
    obtain ⟨r, hr⟩ := List.exists_mem_of_ne_nil _ hne
    rw [List.mem_filter] at hr
    obtain ⟨hrdb, hb⟩ := hr
    rw [Bool.and_eq_true] at hb
    exact ⟨r, hrdb, hb.1, hb.2⟩
  · rintro ⟨r, hrdb, h1, h2⟩
    rw [beq_eq_false_iff_ne]
    intro hlen
    rw [List.length_eq_zero] at hlen
    have hmem : r ∈ db.filter (fun r =>
        lockedPred roomId checkIn checkOut r && checkUnavailable now r) :=
      List.mem_filter.mpr ⟨hrdb, by rw [h1, h2]; rfl⟩
    rw [hlen] at hmem
    exact absurd hmem (List.not_mem_nil r)

theorem lockedPred_holdRowUpdate (roomId checkIn checkOut expiry : Nat)
    (r : AvailabilityRow) :
    lockedPred roomId checkIn checkOut
      (holdRowUpdate roomId checkIn checkOut expiry r) =
      lockedPred roomId checkIn checkOut r := by
  unfold holdRowUpdate
  split <;> simp_all [lockedPred]

theorem lockedPred_releaseRowUpdate (roomId checkIn checkOut : Nat)
    (r : AvailabilityRow) :
    lockedPred roomId checkIn checkOut
      (releaseRowUpdate roomId checkIn checkOut r) =
      lockedPred roomId checkIn checkOut r := by
  unfold releaseRowUpdate
  split <;> simp_all [lockedPred]

theorem holdUpdate_range_held (db : List AvailabilityRow)
    (roomId checkIn checkOut expiry : Nat) :
    ∀ r ∈ db.map (holdRowUpdate roomId checkIn checkOut expiry),
      lockedPred roomId checkIn checkOut r = true → r.status = .held := by
  intro r hr hlock
  rw [List.mem_map] at hr
  obtain ⟨x, hx, rfl⟩ := hr
  rw [lockedPred_holdRowUpdate] at hlock
  unfold holdRowUpdate
  rw [if_pos hlock]

theorem release_range_available (db : List AvailabilityRow)
    (roomId checkIn checkOut : Nat)
    (hpre : ∀ r ∈ db, lockedPred roomId checkIn checkOut r = true →
      r.status = .held ∨ r.status = .available) :
    ∀ r ∈ releaseHold db roomId checkIn checkOut,
      lockedPred roomId checkIn checkOut r = true → r.status = .available := by
  intro r hr hlock
  unfold releaseHold at hr
  rw [List.mem_map] at hr
  obtain ⟨x, hx, rfl⟩ := hr
  rw [lockedPred_releaseRowUpdate] at hlock
  rcases hpre x hx hlock with hheld | havail
  · unfold releaseRowUpdate
    rw [if_pos ⟨hlock, hheld⟩]
  · unfold releaseRowUpdate
    rw [if_neg]
    · exact havail
    · rintro ⟨-, hh⟩
      rw [havail] at hh
      exact absurd hh (by simp)

theorem holdUnavailable_of_available (now : Nat) (r : AvailabilityRow)
    (hs : r.status = .available) : holdUnavailable now r = false := by
  unfold holdUnavailable
  rw [hs]

theorem holdUnavailable_of_expired (now : Nat) (r : AvailabilityRow) (e : Nat)
    (hs : r.status = .held) (he : r.hold_expires_at = some e) (hle : e ≤ now) :
    holdUnavailable now r = false := by
  unfold holdUnavailable
  rw [hs, he]
  simp [Nat.not_lt.mpr hle]

theorem checkUnavailable_of_available (now : Nat) (r : AvailabilityRow)
    (hs : r.status = .available) : checkUnavailable now r = false := by
  unfold checkUnavailable
  rw [hs]
  simp

theorem checkUnavailable_of_expired (now : Nat) (r : AvailabilityRow) (e : Nat)
    (hs : r.status = .held) (he : r.hold_expires_at = some e) (hle : e ≤ now) :
    checkUnavailable now r = false := by
  unfold checkUnavailable
  rw [hs, he]
  simp [Nat.not_lt.mpr hle]

theorem expiredHold_iff (now : Nat) (r : AvailabilityRow) :
    expiredHold now r = true ↔
      r.status = .held ∧ ∃ e, r.hold_expires_at = some e ∧ e < now := by
  unfold expiredHold
  rcases r with ⟨rid, d, st, he, v⟩
  cases he <;> cases st <;> simp

/-- C1 (amended): on a range where at least one date has no AvailabilityRecord
row, holdDatesWithLocking reports no missing-data conflict: the missing dates
are simply absent from the locked rows, the hold succeeds iff no existing row
of the range is booked or unexpired-held, on success it rewrites exactly the
existing rows of the range, and on failure it modifies nothing. -/
theorem holdDatesWithLocking_ignores_missing_rows
    (db : List AvailabilityRow) (roomId checkIn checkOut holdMinutes now d : Nat)
    (_hd1 : checkIn ≤ d) (_hd2 : d ≤ checkOut - 1)
    (_hmissing : ∀ r ∈ db, ¬(r.room_id = roomId ∧ r.date = d)) :
    ((holdDatesWithLocking db roomId checkIn checkOut holdMinutes now).2.success = true ↔
      ∀ r ∈ db, lockedPred roomId checkIn checkOut r = true →
        holdUnavailable now r = false)
    ∧ ((holdDatesWithLocking db roomId checkIn checkOut holdMinutes now).2.success = true →
        (holdDatesWithLocking db roomId checkIn checkOut holdMinutes now).1 =
          db.map (holdRowUpdate roomId checkIn checkOut (now + holdMinutes)))
    ∧ ((holdDatesWithLocking db roomId checkIn checkOut holdMinutes now).2.success = false →
        (holdDatesWithLocking db roomId checkIn checkOut holdMinutes now).1 = db) :=
  ⟨hold_success_iff db roomId checkIn checkOut holdMinutes now,
   hold_success_fst db roomId checkIn checkOut holdMinutes now,
   hold_fail_fst db roomId checkIn checkOut holdMinutes now⟩

/-- C1 witness: on the concrete table holding only an available row for
(room 1, date 10), a hold of the range 10..12 — whose date 11 has no row —
succeeds. -/
theorem holdDatesWithLocking_ignores_missing_rows_witness :
    (holdDatesWithLocking [rowA10] 1 10 12 5 100).2.success = true :=
  (holdDatesWithLocking_ignores_missing_rows [rowA10] 1 10 12 5 100 11
    (by decide) (by decide) (by decide)).1.mpr (by decide)

/-- C1 counterexample: with a row only for (room 1, date 10) and none for
date 11, hold of 10..12 returns success (no "no availability data" conflict)
and rewrites the existing row to held — against the claim that it conflicts
and modifies no row. -/
theorem holdDatesWithLocking_missing_row_cex :
    (List.filter (fun r => decide (r.date = 11)) [rowA10] = [])
    ∧ (holdDatesWithLocking [rowA10] 1 10 12 5 100).2.success = true
    ∧ (holdDatesWithLocking [rowA10] 1 10 12 5 100).1 =
        [⟨1, 10, .held, some 105, 1⟩] := by decide

/-- C2 (amended): checkAvailability returns false exactly when some existing
row of the (room, range) is booked, or held with an expiry still in the
future; dates of the range with no row never make it false, so a range with
missing rows can still count as available. -/
theorem checkAvailability_decided_by_existing_rows
    (db : List AvailabilityRow) (roomId checkIn checkOut now : Nat) :
    checkAvailability db roomId checkIn checkOut now = false ↔
      ∃ r ∈ db, (r.room_id = roomId ∧ checkIn ≤ r.date ∧ r.date ≤ checkOut - 1) ∧
        (r.status = .booked ∨
          (r.status = .held ∧ ∃ e, r.hold_expires_at = some e ∧ now < e)) := by
  rw [checkAvailability_false_iff]
  constructor
  · rintro ⟨r, hr, h1, h2⟩
    exact ⟨r, hr, (lockedPred_iff roomId checkIn checkOut r).mp h1,
      (checkUnavailable_iff now r).mp h2⟩
  · rintro ⟨r, hr, h1, h2⟩
    exact ⟨r, hr, (lockedPred_iff roomId checkIn checkOut r).mpr h1,
      (checkUnavailable_iff now r).mpr h2⟩

/-- C2 counterexample: date 11 of the range 10..12 has no row, yet
checkAvailability returns true — against the claim that a range containing a
date with no row is reported unavailable. -/
theorem checkAvailability_missing_row_cex :
    (List.filter (fun r => decide (r.date = 11)) [rowA10] = [])
    ∧ checkAvailability [rowA10] 1 10 12 0 = true := by decide

/-- C6: confirmBooking and releaseHold update exactly the held rows of the
(room, range): such a row becomes booked (confirm) resp. available (release)
with hold_expires_at cleared and version incremented by one, while a row that
is not held, or lies outside the range, is returned unchanged — a no-op, not
an error. -/
theorem confirmBooking_releaseHold_frame (db : List AvailabilityRow)
    (roomId checkIn checkOut i : Nat) (h : i < db.length)
    (h2 : i < (confirmBooking db roomId checkIn checkOut).length)
    (h3 : i < (releaseHold db roomId checkIn checkOut).length) :
    (((db.get ⟨i, h⟩).room_id = roomId ∧ checkIn ≤ (db.get ⟨i, h⟩).date ∧
        (db.get ⟨i, h⟩).date ≤ checkOut - 1 ∧ (db.get ⟨i, h⟩).status = .held) →
      (confirmBooking db roomId checkIn checkOut).get ⟨i, h2⟩ =
        { db.get ⟨i, h⟩ with
            status := .booked, hold_expires_at := none,
            version := (db.get ⟨i, h⟩).version + 1 } ∧
      (releaseHold db roomId checkIn checkOut).get ⟨i, h3⟩ =
        { db.get ⟨i, h⟩ with
            status := .available, hold_expires_at := none,
            version := (db.get ⟨i, h⟩).version + 1 })
    ∧ (¬((db.get ⟨i, h⟩).room_id = roomId ∧ checkIn ≤ (db.get ⟨i, h⟩).date ∧
          (db.get ⟨i, h⟩).date ≤ checkOut - 1 ∧ (db.get ⟨i, h⟩).status = .held) →
      (confirmBooking db roomId checkIn checkOut).get ⟨i, h2⟩ = db.get ⟨i, h⟩ ∧
      (releaseHold db roomId checkIn checkOut).get ⟨i, h3⟩ = db.get ⟨i, h⟩) := by
  have hc : (confirmBooking db roomId checkIn checkOut).get ⟨i, h2⟩ =
      confirmRowUpdate roomId checkIn checkOut (db.get ⟨i, h⟩) := by
    simp [confirmBooking]
  have hr : (releaseHold db roomId checkIn checkOut).get ⟨i, h3⟩ =
      releaseRowUpdate roomId checkIn checkOut (db.get ⟨i, h⟩) := by
    simp [releaseHold]
  constructor
  · rintro ⟨ha, hb, hcc, hd⟩
    have hl : lockedPred roomId checkIn checkOut (db.get ⟨i, h⟩) = true :=
      (lockedPred_iff roomId checkIn checkOut (db.get ⟨i, h⟩)).mpr ⟨ha, hb, hcc⟩
    rw [hc, hr]
    unfold confirmRowUpdate releaseRowUpdate
    rw [if_pos ⟨hl, hd⟩, if_pos ⟨hl, hd⟩]
    exact ⟨rfl, rfl⟩
  · intro hn
    have hng : ¬(lockedPred roomId checkIn checkOut (db.get ⟨i, h⟩) = true ∧
        (db.get ⟨i, h⟩).status = .held) := by
      rintro ⟨hl, hs⟩
      obtain ⟨x1, x2, x3⟩ := (lockedPred_iff roomId checkIn checkOut (db.get ⟨i, h⟩)).mp hl
      exact hn ⟨x1, x2, x3, hs⟩
    rw [hc, hr]
    unfold confirmRowUpdate releaseRowUpdate
    rw [if_neg hng, if_neg hng]
    exact ⟨rfl, rfl⟩

/-- C6 witness: on a one-row table whose row is held in range, confirm flips
it to booked and release to available, both clearing the expiry and bumping
the version. -/
theorem confirmBooking_releaseHold_frame_witness :
    (confirmBooking [⟨1, 10, .held, some 105, 1⟩] 1 10 12).get ⟨0, by decide⟩ =
      ⟨1, 10, .booked, none, 2⟩
    ∧ (releaseHold [⟨1, 10, .held, some 105, 1⟩] 1 10 12).get ⟨0, by decide⟩ =
      ⟨1, 10, .available, none, 2⟩ :=
  (confirmBooking_releaseHold_frame [⟨1, 10, .held, some 105, 1⟩] 1 10 12 0
    (by decide) (by decide) (by decide)).1 (by decide)

/-- C7: a held row whose expiry has passed is treated as available by both
paths: it is not a hold conflict and not counted by checkAvailability; and
when every existing row of the range is available or expired-held, the hold
succeeds and checkAvailability returns true. -/
theorem expired_hold_treated_as_available (db : List AvailabilityRow)
    (roomId checkIn checkOut holdMinutes now : Nat)
    (hfree : ∀ r ∈ db, lockedPred roomId checkIn checkOut r = true →
      r.status = .available ∨
        (r.status = .held ∧ ∃ e, r.hold_expires_at = some e ∧ e ≤ now)) :
    (∀ r ∈ db, r.status = .held →
      (∃ e, r.hold_expires_at = some e ∧ e ≤ now) →
        holdUnavailable now r = false ∧ checkUnavailable now r = false)
    ∧ (holdDatesWithLocking db roomId checkIn checkOut holdMinutes now).2.success = true
    ∧ checkAvailability db roomId checkIn checkOut now = true := by
  refine ⟨?_, ?_, ?_⟩
  · rintro r - hs ⟨e, he, hle⟩
    exact ⟨holdUnavailable_of_expired now r e hs he hle,
      checkUnavailable_of_expired now r e hs he hle⟩
  · rw [hold_success_iff]
    intro r hr hl
    rcases hfree r hr hl with hs | ⟨hs, e, he, hle⟩
    · exact holdUnavailable_of_available now r hs
    · exact holdUnavailable_of_expired now r e hs he hle
  · by_contra hne
    rw [Bool.not_eq_true] at hne
    obtain ⟨r, hr, hl, hu⟩ := (checkAvailability_false_iff db roomId checkIn checkOut now).mp hne
    rcases hfree r hr hl with hs | ⟨hs, e, he, hle⟩
    · rw [checkUnavailable_of_available now r hs] at hu
      exact absurd hu (by simp)
    · rw [checkUnavailable_of_expired now r e hs he hle] at hu
      exact absurd hu (by simp)

/-- C7 witness: a single row held with expiry 50 in the past of now = 100 is
not a conflict for hold, not counted by checkAvailability, the hold of its
range succeeds, and the range checks available. -/
theorem expired_hold_treated_as_available_witness :
    (∀ r ∈ [(⟨1, 10, .held, some 50, 3⟩ : AvailabilityRow)], r.status = .held →
      (∃ e, r.hold_expires_at = some e ∧ e ≤ 100) →
        holdUnavailable 100 r = false ∧ checkUnavailable 100 r = false)
    ∧ (holdDatesWithLocking [⟨1, 10, .held, some 50, 3⟩] 1 10 11 5 100).2.success = true
    ∧ checkAvailability [⟨1, 10, .held, some 50, 3⟩] 1 10 11 100 = true :=
  expired_hold_treated_as_available [⟨1, 10, .held, some 50, 3⟩] 1 10 11 5 100
    (by decide)

/-- C8: cleanupExpiredHolds rewrites exactly the rows that are held with an
expiry strictly before now — each becomes available with the expiry cleared
and the version incremented by one — leaves every other row unchanged, and
returns the number of rows it updated. -/
theorem cleanupExpiredHolds_spec (db : List AvailabilityRow) (now i : Nat)
    (h : i < db.length) (h2 : i < (cleanupExpiredHolds db now).1.length) :
    (((db.get ⟨i, h⟩).status = .held ∧
        (∃ e, (db.get ⟨i, h⟩).hold_expires_at = some e ∧ e < now)) →
      (cleanupExpiredHolds db now).1.get ⟨i, h2⟩ =
        { db.get ⟨i, h⟩ with
            status := .available, hold_expires_at := none,
            version := (db.get ⟨i, h⟩).version + 1 })
    ∧ (¬((db.get ⟨i, h⟩).status = .held ∧
          (∃ e, (db.get ⟨i, h⟩).hold_expires_at = some e ∧ e < now)) →
      (cleanupExpiredHolds db now).1.get ⟨i, h2⟩ = db.get ⟨i, h⟩)
    ∧ (cleanupExpiredHolds db now).2 = db.countP (expiredHold now) := by
  have hg : (cleanupExpiredHolds db now).1.get ⟨i, h2⟩ =
      reapRowUpdate now (db.get ⟨i, h⟩) := by
    simp [cleanupExpiredHolds]
  refine ⟨?_, ?_, ?_⟩
  · intro hcond
    rw [hg]
    unfold reapRowUpdate
    rw [if_pos ((expiredHold_iff now (db.get ⟨i, h⟩)).mpr hcond)]
  · intro hcond
    rw [hg]
    unfold reapRowUpdate
    rw [if_neg (fun hx => hcond ((expiredHold_iff now (db.get ⟨i, h⟩)).mp hx))]
  · simp [cleanupExpiredHolds, List.countP_eq_length_filter]

/-- C8 witness: a table with one expired held row, one unexpired held row and
one booked row: the expired row is reset with its version bumped, the others
are untouched, and the count of updated rows is 1. -/
theorem cleanupExpiredHolds_spec_witness :
    (cleanupExpiredHolds
        [⟨1, 10, .held, some 50, 3⟩, ⟨1, 11, .held, some 200, 3⟩] 100).1.get
      ⟨0, by decide⟩ = ⟨1, 10, .available, none, 4⟩ :=
  (cleanupExpiredHolds_spec
    [⟨1, 10, .held, some 50, 3⟩, ⟨1, 11, .held, some 200, 3⟩] 100 0
    (by decide) (by decide)).1 (by decide)

/-- C10: getBooking with a supplied userId returns the same NotFound error
both when no booking has the id and when the booking found belongs to a
different user — the two cases are indistinguishable to the caller — and
returns the booking exactly when it is found and owned by the caller. -/
theorem getBooking_owner_scoping (bookings : List Booking) (bookingId uid : Nat) :
    (bookings.find? (fun b => decide (b.id = bookingId)) = none →
      getBooking bookings bookingId (some uid) =
        .error (.notFoundBooking bookingId))
    ∧ (∀ b, bookings.find? (fun b => decide (b.id = bookingId)) = some b →
        b.user_id ≠ uid →
        getBooking bookings bookingId (some uid) =
          .error (.notFoundBooking bookingId))
    ∧ (∀ b, bookings.find? (fun b => decide (b.id = bookingId)) = some b →
        b.user_id = uid →
        getBooking bookings bookingId (some uid) = .ok b) := by
  refine ⟨?_, ?_, ?_⟩
  · intro hfind
    unfold getBooking
    rw [hfind]
  · intro b hfind hne
    unfold getBooking
    rw [hfind]
    simp [hne]
  · intro b hfind heq
    unfold getBooking
    rw [hfind]
    simp [heq]

/-- C5 (amended): when the supplied idempotency key is non-empty (truthy in
JS) and already maps to a stored booking, createBooking returns that booking
as is, leaves the whole state unchanged, and performs no external call at
all; an empty-string key, however, skips the lookup (see the counterexample),
so the call re-runs the side effects. -/
theorem createBooking_idempotent_replay (env : Env) (st : BookingsState)
    (userId : Nat) (dto : CreateBookingDto) (key : String) (b : Booking)
    (hkey : key ≠ "")
    (hfind : st.bookings.find?
      (fun bk => decide (bk.idempotency_key = some key)) = some b) :
    createBooking env st userId dto (some key) = ⟨st, [], .ok b⟩ := by
  simp [createBooking, idemLookup, hkey, hfind]

/-- C5 witness: replaying the non-empty key "key-1" against a state holding
storedBooking returns it unchanged with an empty effect trace. -/
theorem createBooking_idempotent_replay_witness :
    createBooking envOk ⟨[], [storedBooking], 4⟩ 9 ⟨1, 10, 12, 2, none⟩
      (some "key-1") = ⟨⟨[], [storedBooking], 4⟩, [], .ok storedBooking⟩ :=
  createBooking_idempotent_replay envOk ⟨[], [storedBooking], 4⟩ 9
    ⟨1, 10, 12, 2, none⟩ "key-1" storedBooking (by decide) (by decide)

/-- C5 counterexample: a stored booking with the empty-string key, replayed
with the same empty-string key: `if (idempotencyKey)` is falsy, so the lookup
is skipped, hold and the PENDING save are re-run (the save then hits the
UNIQUE constraint on the duplicated key), the range ends up held and an error
surfaces — not the stored booking returned unchanged with no side effects. -/
theorem createBooking_empty_key_no_replay_cex :
    (createBooking envOk stEmptyKey 7 ⟨1, 10, 12, 2, none⟩ (some "")).outcome =
      .error (.internalError "booking save failed")
    ∧ (createBooking envOk stEmptyKey 7 ⟨1, 10, 12, 2, none⟩ (some "")).trace =
      [.roomLookup 1, .holdCall 1 10 12, .savePending 4]
    ∧ (createBooking envOk stEmptyKey 7 ⟨1, 10, 12, 2, none⟩
        (some "")).state.availability =
      [⟨1, 10, .held, some 105, 1⟩, ⟨1, 11, .held, some 105, 1⟩]
    ∧ (createBooking envOk stEmptyKey 7 ⟨1, 10, 12, 2, none⟩
        (some "")).state.bookings = [emptyKeyBooking] :=
  ⟨rfl, rfl, rfl, rfl⟩

/-- C4 (amended): when the hold reports a conflict, createBooking surfaces a
conflict error carrying the conflicting dates, never calls the payment
gateway — but creates no Booking row at all (none exists to be marked
CANCELLED): the PENDING row is only created after a successful hold, not
before the hold. -/
theorem createBooking_hold_conflict_no_row (env : Env) (st : BookingsState)
    (userId : Nat) (dto : CreateBookingDto) (key : Option String) (room : Room)
    (hidem : idemLookup st key = none)
    (hdates : dto.checkIn < dto.checkOut)
    (hpast : env.today ≤ dto.checkIn)
    (hroom : env.rooms.find? (fun r => decide (r.id = dto.roomId)) = some room)
    (hcap : dto.guests ≤ room.capacity)
    (hfail : (holdDatesWithLocking st.availability dto.roomId dto.checkIn
      dto.checkOut 5 env.now).2.success = false) :
    (createBooking env st userId dto key).outcome =
      .error (.conflict (holdDatesWithLocking st.availability dto.roomId
        dto.checkIn dto.checkOut 5 env.now).2.conflictDates)
    ∧ (createBooking env st userId dto key).state.bookings = st.bookings
    ∧ (createBooking env st userId dto key).state.availability = st.availability
    ∧ ∀ c ∈ (createBooking env st userId dto key).trace,
        c.isPaymentCall = false := by
  have h1 : ¬(dto.checkOut ≤ dto.checkIn) := Nat.not_le.mpr hdates
  have h2 : ¬(dto.checkIn < env.today) := Nat.not_lt.mpr hpast
  have h3 : ¬(room.capacity < dto.guests) := Nat.not_lt.mpr hcap
  have hfst := hold_fail_fst st.availability dto.roomId dto.checkIn dto.checkOut
    5 env.now hfail
  simp [createBooking, hidem, h1, h2, hroom, h3, hfail, hfst,
    EffectCall.isPaymentCall]

/-- C4 witness: on the booked-date state the hold conflicts and no booking
row is created. -/
theorem createBooking_hold_conflict_no_row_witness :
    (createBooking envOk stConflict 7 ⟨1, 10, 12, 2, none⟩
      (some "k2")).state.bookings = [] :=
  (createBooking_hold_conflict_no_row envOk stConflict 7 ⟨1, 10, 12, 2, none⟩
    (some "k2") ⟨1, 100, 4⟩ (by decide) (by decide) (by decide) (by decide)
    (by decide) (by decide)).2.1

/-- C4 counterexample: the hold conflict surfaces as a conflict error, but the
bookings table stays empty — no Booking row exists for the request, so none
was created before the hold and none is marked CANCELLED. -/
theorem createBooking_hold_conflict_cex :
    (createBooking envOk stConflict 7 ⟨1, 10, 12, 2, none⟩ (some "k2")).outcome =
      .error (.conflict [10])
    ∧ (createBooking envOk stConflict 7 ⟨1, 10, 12, 2, none⟩
        (some "k2")).state.bookings = [] :=
  ⟨rfl, rfl⟩

/-- C3 (amended): once the hold succeeded and the PENDING booking row was
persisted, any payment failure — the gateway declining or the payment call
throwing — leads to a surfaced error with every availability row of the held
range back to available; but this guarantee starts only after the PENDING
save: an exception in that save itself (see the counterexample) surfaces with
the rows still held. -/
theorem createBooking_releases_after_payment_failure (env : Env)
    (st : BookingsState) (userId : Nat) (dto : CreateBookingDto)
    (key : Option String) (room : Room)
    (hidem : idemLookup st key = none)
    (hdates : dto.checkIn < dto.checkOut)
    (hpast : env.today ≤ dto.checkIn)
    (hroom : env.rooms.find? (fun r => decide (r.id = dto.roomId)) = some room)
    (hcap : dto.guests ≤ room.capacity)
    (hhold : (holdDatesWithLocking st.availability dto.roomId dto.checkIn
      dto.checkOut 5 env.now).2.success = true)
    (hsave : pendingSaveThrows env st key = false)
    (hpay : ∀ pr, env.payment = .ok pr → pr.status = .failed) :
    (∃ e, (createBooking env st userId dto key).outcome = .error e)
    ∧ ∀ r ∈ (createBooking env st userId dto key).state.availability,
        lockedPred dto.roomId dto.checkIn dto.checkOut r = true →
          r.status = .available := by
  have h1 : ¬(dto.checkOut ≤ dto.checkIn) := Nat.not_le.mpr hdates
  have h2 : ¬(dto.checkIn < env.today) := Nat.not_lt.mpr hpast
  have h3 : ¬(room.capacity < dto.guests) := Nat.not_lt.mpr hcap
  have hfst := hold_success_fst st.availability dto.roomId dto.checkIn
    dto.checkOut 5 env.now hhold
  have hheld := holdUpdate_range_held st.availability dto.roomId dto.checkIn
    dto.checkOut (env.now + 5)
  have hrel1 : ∀ r ∈ releaseHold (holdDatesWithLocking st.availability
      dto.roomId dto.checkIn dto.checkOut 5 env.now).1 dto.roomId dto.checkIn
      dto.checkOut,
      lockedPred dto.roomId dto.checkIn dto.checkOut r = true →
        r.status = .available := by
    rw [hfst]
    exact release_range_available _ dto.roomId dto.checkIn dto.checkOut
      (fun r hr hl => Or.inl (hheld r hr hl))
  have hrel2 : ∀ r ∈ releaseHold (releaseHold (holdDatesWithLocking
      st.availability dto.roomId dto.checkIn dto.checkOut 5 env.now).1
      dto.roomId dto.checkIn dto.checkOut) dto.roomId dto.checkIn dto.checkOut,
      lockedPred dto.roomId dto.checkIn dto.checkOut r = true →
        r.status = .available :=
    release_range_available _ dto.roomId dto.checkIn dto.checkOut
      (fun r hr hl => Or.inr (hrel1 r hr hl))
  rcases hp : env.payment with m | pr
  · have hav : (createBooking env st userId dto key).state.availability =
        releaseHold (holdDatesWithLocking st.availability dto.roomId
          dto.checkIn dto.checkOut 5 env.now).1 dto.roomId dto.checkIn
          dto.checkOut := by
      simp [createBooking, hidem, h1, h2, hroom, h3, hhold, hsave, hp]
    have hoc : (createBooking env st userId dto key).outcome =
        .error (.internalError m) := by
      simp [createBooking, hidem, h1, h2, hroom, h3, hhold, hsave, hp]
    exact ⟨⟨_, hoc⟩, by rw [hav]; exact hrel1⟩
  · have hprf : pr.status = .failed := hpay pr hp
    have hns : ¬(pr.status = .success) := by
      rw [hprf]
      intro hx
      cases hx
    have hav : (createBooking env st userId dto key).state.availability =
        releaseHold (releaseHold (holdDatesWithLocking st.availability
          dto.roomId dto.checkIn dto.checkOut 5 env.now).1 dto.roomId
          dto.checkIn dto.checkOut) dto.roomId dto.checkIn dto.checkOut := by
      simp [createBooking, hidem, h1, h2, hroom, h3, hhold, hsave, hp, hns]
    have hoc : (createBooking env st userId dto key).outcome =
        .error (.badRequest "Payment failed") := by
      simp [createBooking, hidem, h1, h2, hroom, h3, hhold, hsave, hp, hns]
    exact ⟨⟨_, hoc⟩, by rw [hav]; exact hrel2⟩

/-- C3 witness: a declined payment on the free two-night state surfaces an
error (with, per the theorem, the held range released). -/
theorem createBooking_releases_after_payment_failure_witness :
    ∃ e, (createBooking envDecl stFree 7 ⟨1, 10, 12, 2, none⟩
      (some "kk")).outcome = .error e :=
  (createBooking_releases_after_payment_failure envDecl stFree 7
    ⟨1, 10, 12, 2, none⟩ (some "kk") ⟨1, 100, 4⟩ (by decide) (by decide)
    (by decide) (by decide) (by decide) (by decide) (by decide)
    (by intro pr hpr; simp [envDecl] at hpr; subst hpr; rfl)).1

/-- C3 counterexample: when saving the PENDING booking row throws (after a
successful hold), the error surfaces while both rows of the range are still
held — not released — contradicting the claim that every post-hold failure
path releases before surfacing. -/
theorem createBooking_pending_save_not_released_cex :
    (createBooking envSaveFails stFree 7 ⟨1, 10, 12, 2, none⟩
      (some "k")).outcome = .error (.internalError "booking save failed")
    ∧ (createBooking envSaveFails stFree 7 ⟨1, 10, 12, 2, none⟩
        (some "k")).state.availability =
      [⟨1, 10, .held, some 105, 1⟩, ⟨1, 11, .held, some 105, 1⟩] :=
  ⟨rfl, rfl⟩

theorem map_update_id_miss (bookings : List Booking) (b2 : Booking)
    (hfresh : ∀ x ∈ bookings, x.id ≠ b2.id) :
    bookings.map (fun x => if x.id = b2.id then b2 else x) = bookings := by
  induction bookings with
  | nil => rfl
  | cons hd tl ih =>
    rw [List.map_cons, if_neg (hfresh hd (List.mem_cons_self hd tl)),
      ih (fun x hx => hfresh x (List.mem_cons_of_mem hd hx))]

theorem updateBookingRow_append (bookings : List Booking) (b b2 : Booking)
    (hid : b.id = b2.id) (hfresh : ∀ x ∈ bookings, x.id ≠ b2.id) :
    updateBookingRow (bookings ++ [b]) b2 = bookings ++ [b2] := by
  unfold updateBookingRow
  rw [List.map_append, map_update_id_miss bookings b2 hfresh]
  simp [hid]

/-- C9 (amended): no idempotency key is ever generated: the controller's key
selection (header key, else dto key) yields no key when the caller sent none;
a Booking row is persisted with exactly the caller-supplied key when one was
supplied; and with no key at all the PENDING insert violates the NOT NULL
idempotency_key column — the save throws, no Booking row is created, and the
error surfaces (with the hold not released). -/
theorem createBooking_key_passthrough (env : Env) (st : BookingsState)
    (userId : Nat) (dto : CreateBookingDto) (key : Option String) (room : Room)
    (hidem : idemLookup st key = none)
    (hdates : dto.checkIn < dto.checkOut)
    (hpast : env.today ≤ dto.checkIn)
    (hroom : env.rooms.find? (fun r => decide (r.id = dto.roomId)) = some room)
    (hcap : dto.guests ≤ room.capacity)
    (hhold : (holdDatesWithLocking st.availability dto.roomId dto.checkIn
      dto.checkOut 5 env.now).2.success = true)
    (hinj : env.pendingSaveFails = false)
    (hfresh : ∀ b ∈ st.bookings, b.id ≠ st.nextBookingId)
    (hdup : ∀ b ∈ st.bookings, b.idempotency_key ≠ key) :
    chooseIdempotencyKey none none = none
    ∧ (key = none →
        (createBooking env st userId dto key).state.bookings = st.bookings
        ∧ (createBooking env st userId dto key).outcome =
            .error (.internalError "booking save failed"))
    ∧ (∀ k, key = some k →
        ∃ b, (createBooking env st userId dto key).state.bookings =
            st.bookings ++ [b] ∧ b.idempotency_key = some k) := by
  have h1 : ¬(dto.checkOut ≤ dto.checkIn) := Nat.not_le.mpr hdates
  have h2 : ¬(dto.checkIn < env.today) := Nat.not_lt.mpr hpast
  have h3 : ¬(room.capacity < dto.guests) := Nat.not_lt.mpr hcap
  refine ⟨rfl, ?_, ?_⟩
  · rintro rfl
    have hsv : pendingSaveThrows env st none = true := by
      simp [pendingSaveThrows]
    constructor
    · simp [createBooking, hidem, h1, h2, hroom, h3, hhold, hsv]
    · simp [createBooking, hidem, h1, h2, hroom, h3, hhold, hsv]
  · rintro k rfl
    have hsv : pendingSaveThrows env st (some k) = false := by
      simp only [pendingSaveThrows, hinj, Bool.false_or, Bool.or_eq_false_iff,
        decide_eq_false_iff_not, List.any_eq_false]
      exact ⟨by simp, fun b hb => by simpa using hdup b hb⟩
    rcases hp : env.payment with m | pr
    · refine ⟨{ id := st.nextBookingId,
                user_id := userId,
                room_id := dto.roomId,
                check_in := dto.checkIn,
                check_out := dto.checkOut,
                guests := dto.guests,
                status := .pending,
                total_price := room.price * (dto.checkOut - dto.checkIn),
                idempotency_key := some k,
                payment_intent_id := none }, ?_, rfl⟩
      simp [createBooking, hidem, h1, h2, hroom, h3, hhold, hsv, hp]
    · by_cases hps : pr.status = .success
      · refine ⟨{ id := st.nextBookingId,
                  user_id := userId,
                  room_id := dto.roomId,
                  check_in := dto.checkIn,
                  check_out := dto.checkOut,
                  guests := dto.guests,
                  status := .confirmed,
                  total_price := room.price * (dto.checkOut - dto.checkIn),
                  idempotency_key := some k,
                  payment_intent_id := some pr.transactionId }, ?_, rfl⟩
        have hb : (createBooking env st userId dto (some k)).state.bookings =
            updateBookingRow (st.bookings ++
              [{ id := st.nextBookingId, user_id := userId,
                 room_id := dto.roomId, check_in := dto.checkIn,
                 check_out := dto.checkOut, guests := dto.guests,
                 status := .pending,
                 total_price := room.price * (dto.checkOut - dto.checkIn),
                 idempotency_key := some k, payment_intent_id := none }])
              { id := st.nextBookingId, user_id := userId,
                room_id := dto.roomId, check_in := dto.checkIn,
                check_out := dto.checkOut, guests := dto.guests,
                status := .confirmed,
                total_price := room.price * (dto.checkOut - dto.checkIn),
                idempotency_key := some k,
                payment_intent_id := some pr.transactionId } := by
          simp [createBooking, hidem, h1, h2, hroom, h3, hhold, hsv, hp, hps]
        rw [hb]
        exact updateBookingRow_append st.bookings _ _ rfl hfresh
      · refine ⟨{ id := st.nextBookingId,
                  user_id := userId,
                  room_id := dto.roomId,
                  check_in := dto.checkIn,
                  check_out := dto.checkOut,
                  guests := dto.guests,
                  status := .cancelled,
                  total_price := room.price * (dto.checkOut - dto.checkIn),
                  idempotency_key := some k,
                  payment_intent_id := none }, ?_, rfl⟩
        have hb : (createBooking env st userId dto (some k)).state.bookings =
            updateBookingRow (st.bookings ++
              [{ id := st.nextBookingId, user_id := userId,
                 room_id := dto.roomId, check_in := dto.checkIn,
                 check_out := dto.checkOut, guests := dto.guests,
                 status := .pending,
                 total_price := room.price * (dto.checkOut - dto.checkIn),
                 idempotency_key := some k, payment_intent_id := none }])
              { id := st.nextBookingId, user_id := userId,
                room_id := dto.roomId, check_in := dto.checkIn,
                check_out := dto.checkOut, guests := dto.guests,
                status := .cancelled,
                total_price := room.price * (dto.checkOut - dto.checkIn),
                idempotency_key := some k, payment_intent_id := none } := by
          simp [createBooking, hidem, h1, h2, hroom, h3, hhold, hsv, hp, hps]
        rw [hb]
        exact updateBookingRow_append st.bookings _ _ rfl hfresh

/-- C9 witness: with no caller key on the free state, the controller selects
no key and, per the theorem, the PENDING save fails, so the bookings table
stays empty. -/
theorem createBooking_key_passthrough_witness :
    chooseIdempotencyKey none none = none
    ∧ (createBooking envOk stFree 7 ⟨1, 10, 12, 2, none⟩
        none).state.bookings = [] :=
  ⟨(createBooking_key_passthrough envOk stFree 7 ⟨1, 10, 12, 2, none⟩ none
      ⟨1, 100, 4⟩ (by decide) (by decide) (by decide) (by decide) (by decide)
      (by decide) (by decide) (by decide) (by decide)).1,
   ((createBooking_key_passthrough envOk stFree 7 ⟨1, 10, 12, 2, none⟩ none
      ⟨1, 100, 4⟩ (by decide) (by decide) (by decide) (by decide) (by decide)
      (by decide) (by decide) (by decide) (by decide)).2.1 rfl).1⟩

/-- C9 counterexample: with no idempotency key supplied, no key is generated
and no Booking row is created at all — the PENDING insert fails on the NOT
NULL idempotency_key column, the error surfaces and the range stays held —
against the claim that the orchestrator generates a key and the row is
created with it. -/
theorem createBooking_no_generated_key_cex :
    chooseIdempotencyKey none none = none
    ∧ (createBooking envOk stFree 7 ⟨1, 10, 12, 2, none⟩ none).outcome =
        .error (.internalError "booking save failed")
    ∧ (createBooking envOk stFree 7 ⟨1, 10, 12, 2, none⟩
        none).state.bookings = [] :=
  ⟨rfl, rfl, rfl⟩

end RoomBooking
